import Mathlib

/-!
A shallow embedding of `src/espn.py`: the `Qbr` class that loads ESPN QBR
tables.  Python values flowing through the request fields and normalizers
are modelled by `PyObj`; the pandas fetch-and-parse collaborator
(`pd.read_html` followed by the column-wise `pd.concat`) is an abstract
function returning either the per-page row payloads or a raised exception
kind; `print` calls are collected as lists of diagnostic strings, and an
exception escaping a function is an `Except.error`.
-/

namespace Espn

/-- An element of a Python list flowing through this module: an int, or any
non-int object (a float or a string, say), abstracted by a tag. -/
inductive PyElem where
  | int (n : Int)
  | other (tag : String)
  deriving DecidableEq, Repr

/-- A dynamic Python value as it appears in this module: the request fields
hold ints, strings, lists, `None`, or some other object (a float, say). -/
inductive PyObj where
  | int (n : Int)
  | str (s : String)
  | list (xs : List PyElem)
  | pynone
  | other (tag : String)
  deriving DecidableEq, Repr

/-- Decidable equality for `Except`, used to evaluate results on concrete
inputs. -/
def exceptDecEq {ε α : Type} [DecidableEq ε] [DecidableEq α] :
    (a b : Except ε α) → Decidable (a = b)
  | .ok a, .ok b =>
      if h : a = b then isTrue (congrArg Except.ok h)
      else isFalse fun hh => h (Except.ok.inj hh)
  | .ok _, .error _ => isFalse fun hh => Except.noConfusion hh
  | .error _, .ok _ => isFalse fun hh => Except.noConfusion hh
  | .error e, .error f =>
      if h : e = f then isTrue (congrArg Except.error h)
      else isFalse fun hh => h (Except.error.inj hh)

instance {ε α : Type} [DecidableEq ε] [DecidableEq α] :
    DecidableEq (Except ε α) := exceptDecEq

/-- The Python exception kinds relevant to this module: the two kinds caught
in `load_weekly_qbr`, the kind caught in `load_season_leaders_qbr` and
around `pd.concat`, and the unbound-local fault of `load_qbr`'s fall-through
`return`. -/
inductive Exc where
  | importError
  | typeError
  | valueError
  | unboundLocalError
  deriving DecidableEq, Repr

/-- Printed by `load_qbr` when the stat type is unrecognized. -/
def msg_stat_type : String :=
  "Please enter an appropriate choice for stat types: weekly or leaders."

/-- Printed by `load_weekly_qbr` when the loop raises `ImportError`. -/
def msg_weekly_no_data : String :=
  "No data to output. Check variables entered. Note: there is no 'Week 4' webpage for postseason stats. It is skipped, with Week 3 as Conference Championships, and Week 5 as the Super Bowl."

/-- Printed by `load_weekly_qbr` when the loop raises `TypeError`. -/
def msg_params : String := "Please enter valid parameters."

/-- Printed when `pd.concat` of the collected tables raises `ValueError`. -/
def msg_no_data : String := "No data to output."

/-- Printed by `load_season_leaders_qbr` when its loop raises `ValueError`. -/
def msg_no_tables : String := "No tables found."

/-- Printed by `convert_season_identifiers` on an unrecognized season type. -/
def msg_season_types : String :=
  "Please enter either: 'regular', 'postseason', or 'all'."

/-- `Qbr.convert_season_identifiers`: the method compares `self.season_type`
(the field — its `season_type` parameter is never read) against the three
known season types and returns the url identifier list; otherwise it prints
a diagnostic and returns that `print`'s value, Python `None`.  The value is
paired with the printed messages. -/
def convert_season_identifiers (self_season_type arg : PyObj) :
    PyObj × List String :=
  if self_season_type = .str "regular" then (.list [.int 2], [])
  else if self_season_type = .str "postseason" then (.list [.int 3], [])
  else if self_season_type = .str "all" then (.list [.int 2, .int 3], [])
  else (.pynone, [msg_season_types])

/-- Python `isinstance(x, int)` on a list element, as used in
`convert_to_list`. -/
def PyElem.isInt : PyElem → Bool
  | .int _ => true
  | _ => false

/-- Python `isinstance(x, int)` on a request field. -/
def PyObj.isInt : PyObj → Bool
  | .int _ => true
  | _ => false

/-- Python `isinstance(x, list)` as used in `convert_to_list`. -/
def PyObj.isList : PyObj → Bool
  | .list _ => true
  | _ => false

/-- `Qbr.convert_to_list`: a single int is appended to the empty output
list; a list is copied and, if every element is an int, the copy is
returned, a non-int element making the method return `None` instead; any
other input also returns `None`. -/
def convert_to_list (weeks_or_years : PyObj) : PyObj :=
  match weeks_or_years with
  | .int n => .list [.int n]
  | .list xs => if xs.all PyElem.isInt then .list xs else .pynone
  | _ => .pynone

/-- One row of a weekly per-page table after `load_weekly_qbr` tags it: the
originally published columns are an opaque payload, and the loop appends the
`year` column and the human-readable `season_type` column. -/
structure TaggedRow where
  payload : Nat
  year : PyElem
  season_type : String
  deriving DecidableEq, Repr

/-- One row of a leaders per-page table: payload plus the `year` column. -/
structure LeaderRow where
  payload : Nat
  year : PyElem
  deriving DecidableEq, Repr

/-- The fetch collaborator for weekly pages: from the url components
(year, season code, week), the row payloads of the page's tables after the
column-wise join, or a raised exception. -/
abbrev WeeklyFetch : Type := PyElem → PyElem → PyElem → Except Exc (List Nat)

/-- The fetch collaborator for leaders pages: url components (year, season
code). -/
abbrev LeadersFetch : Type := PyElem → PyElem → Except Exc (List Nat)

/-- The `for week in weeks` loop of `load_weekly_qbr`: the postseason (3) /
week 4 combination is skipped with `continue`; otherwise the page is
fetched, its rows are tagged with the year and with
`'regular' if season_id == 2 else 'postseason'`, and the page is appended to
the accumulator `df`.  A raised exception stops the iteration, keeping the
pages collected so far. -/
def loopWeeks (fetch : WeeklyFetch) (season_id year : PyElem) :
    List PyElem → List (List TaggedRow) → List (List TaggedRow) × Option Exc
  | [], df => (df, none)
  | week :: rest, df =>
    if season_id = .int 3 ∧ week = .int 4 then
      loopWeeks fetch season_id year rest df
    else
      match fetch year season_id week with
      | .ok rows =>
          loopWeeks fetch season_id year rest
            (df ++ [rows.map fun p =>
              { payload := p, year := year,
                season_type :=
                  if season_id = .int 2 then "regular" else "postseason" }])
      | .error e => (df, some e)

/-- The `for year in years` loop of `load_weekly_qbr`: iterating a non-list
`weeks` raises `TypeError`; an exception from the inner loop propagates. -/
def loopYears (fetch : WeeklyFetch) (season_id : PyElem) (weeks : PyObj) :
    List PyElem → List (List TaggedRow) → List (List TaggedRow) × Option Exc
  | [], df => (df, none)
  | year :: rest, df =>
    match weeks with
    | .list ws =>
      match loopWeeks fetch season_id year ws df with
      | (df2, none) => loopYears fetch season_id weeks rest df2
      | (df2, some e) => (df2, some e)
    | _ => (df, some .typeError)

/-- The `for season_id in season_type` loop of `load_weekly_qbr`: iterating
a non-list `years` raises `TypeError`. -/
def loopSeasons (fetch : WeeklyFetch) (years weeks : PyObj) :
    List PyElem → List (List TaggedRow) → List (List TaggedRow) × Option Exc
  | [], df => (df, none)
  | season_id :: rest, df =>
    match years with
    | .list ys =>
      match loopYears fetch season_id weeks ys df with
      | (df2, none) => loopSeasons fetch years weeks rest df2
      | (df2, some e) => (df2, some e)
    | _ => (df, some .typeError)

/-- The whole `try`-wrapped nested loop of `load_weekly_qbr`, starting from
the empty accumulator `df = []`: iterating a non-list `season_type` raises
`TypeError` at once.  Result: the collected per-page tables in order, and
the exception that escaped the loop, if any. -/
def weeklyLoop (fetch : WeeklyFetch) (years weeks season_type : PyObj) :
    List (List TaggedRow) × Option Exc :=
  match season_type with
  | .list ss => loopSeasons fetch years weeks ss []
  | _ => ([], some .typeError)

/-- A value returned by `load_weekly_qbr`: the row-bound rows, the printed
diagnostics in order, and whether the Python return value is the plain
empty list `[]` (set in the `except ValueError` branch) rather than a
dataframe. -/
structure WeeklyOut where
  rows : List TaggedRow
  msgs : List String
  isEmptyList : Bool
  deriving DecidableEq, Repr

/-- The final `pd.concat(df, ignore_index=True)` step of `load_weekly_qbr`:
concatenating an empty collection raises `ValueError`, caught and turned
into a diagnostic plus the empty list; otherwise the collected pages are
row-bound in collection order.  `ms` carries the diagnostics already
printed by the loop's `except` clauses. -/
def concatWeekly (df : List (List TaggedRow)) (ms : List String) : WeeklyOut :=
  if df = [] then { rows := [], msgs := ms ++ [msg_no_data], isEmptyList := true }
  else { rows := df.flatten, msgs := ms, isEmptyList := false }

/-- `Qbr.load_weekly_qbr`: run the nested fetch loop; `ImportError` and
`TypeError` are caught with their diagnostics, any other exception
propagates out of the function; then row-bind the collected tables. -/
def load_weekly_qbr (fetch : WeeklyFetch) (years weeks season_type : PyObj) :
    Except Exc WeeklyOut :=
  match (weeklyLoop fetch years weeks season_type).2 with
  | none => .ok (concatWeekly (weeklyLoop fetch years weeks season_type).1 [])
  | some .importError =>
      .ok (concatWeekly (weeklyLoop fetch years weeks season_type).1 [msg_weekly_no_data])
  | some .typeError =>
      .ok (concatWeekly (weeklyLoop fetch years weeks season_type).1 [msg_params])
  | some e => .error e

/-- The `for year in years` loop of `load_season_leaders_qbr`: fetch the
(year, season) page and append its rows, tagged with the `year` column. -/
def loopLeadersYears (fetch : LeadersFetch) (season_id : PyElem) :
    List PyElem → List (List LeaderRow) → List (List LeaderRow) × Option Exc
  | [], df => (df, none)
  | year :: rest, df =>
    match fetch year season_id with
    | .ok rows =>
        loopLeadersYears fetch season_id rest
          (df ++ [rows.map fun p => { payload := p, year := year }])
    | .error e => (df, some e)

/-- The `for season_id in season_type` loop of `load_season_leaders_qbr`. -/
def loopLeadersSeasons (fetch : LeadersFetch) (years : PyObj) :
    List PyElem → List (List LeaderRow) → List (List LeaderRow) × Option Exc
  | [], df => (df, none)
  | season_id :: rest, df =>
    match years with
    | .list ys =>
      match loopLeadersYears fetch season_id ys df with
      | (df2, none) => loopLeadersSeasons fetch years rest df2
      | (df2, some e) => (df2, some e)
    | _ => (df, some .typeError)

/-- The whole `try`-wrapped loop of `load_season_leaders_qbr`. -/
def leadersLoop (fetch : LeadersFetch) (years season_type : PyObj) :
    List (List LeaderRow) × Option Exc :=
  match season_type with
  | .list ss => loopLeadersSeasons fetch years ss []
  | _ => ([], some .typeError)

/-- A value returned by `load_season_leaders_qbr`. -/
structure LeadersOut where
  rows : List LeaderRow
  msgs : List String
  isEmptyList : Bool
  deriving DecidableEq, Repr

/-- The final `pd.concat` step of `load_season_leaders_qbr`. -/
def concatLeaders (df : List (List LeaderRow)) (ms : List String) : LeadersOut :=
  if df = [] then { rows := [], msgs := ms ++ [msg_no_data], isEmptyList := true }
  else { rows := df.flatten, msgs := ms, isEmptyList := false }

/-- `Qbr.load_season_leaders_qbr`: only `ValueError` is caught around the
loop (printing "No tables found." and assigning the empty list, which the
following `pd.concat` step then overwrites from the partial collection);
any other exception — including the `TypeError` from iterating `None` —
propagates uncaught. -/
def load_season_leaders_qbr (fetch : LeadersFetch) (years season_type : PyObj) :
    Except Exc LeadersOut :=
  match (leadersLoop fetch years season_type).2 with
  | none => .ok (concatLeaders (leadersLoop fetch years season_type).1 [])
  | some .valueError =>
      .ok (concatLeaders (leadersLoop fetch years season_type).1 [msg_no_tables])
  | some e => .error e

/-- The `Qbr` object: its four attributes, each a dynamic Python value.
`load_qbr` overwrites the first three in place during normalization. -/
structure Qbr where
  years : PyObj
  weeks : PyObj
  season_type : PyObj
  stat_type : PyObj
  deriving DecidableEq, Repr

/-- Python `str.lower()`: fold every character to lower case (ASCII case
folding, which covers this module's season and stat type inputs). -/
def pyLower (s : String) : String := ⟨s.data.map Char.toLower⟩

/-- Python `str.strip()`: drop leading and trailing whitespace. -/
def pyStrip (s : String) : String :=
  ⟨((s.data.dropWhile Char.isWhitespace).reverse.dropWhile
      Char.isWhitespace).reverse⟩

/-- `Qbr.__init__`: years and weeks are stored as given; the season and
stat types are lower-cased and stripped. -/
def Qbr.init (years weeks : PyObj) (season_type stat_type : String) : Qbr :=
  { years := years, weeks := weeks,
    season_type := .str (pyStrip (pyLower season_type)),
    stat_type := .str (pyStrip (pyLower stat_type)) }

/-- What `load_qbr` returns when it returns at all. -/
inductive QbrResult where
  | weekly (o : WeeklyOut)
  | leaders (o : LeadersOut)
  deriving DecidableEq, Repr

/-- The object state after `load_qbr`'s three normalizing re-assignments of
`self.season_type`, `self.years` and `self.weeks`. -/
def normalizedQbr (q : Qbr) : Qbr :=
  { q with season_type := (convert_season_identifiers q.season_type q.season_type).1,
           years := convert_to_list q.years,
           weeks := convert_to_list q.weeks }

/-- `Qbr.load_qbr`: normalize and overwrite the object's `season_type`,
`years` and `weeks` fields, then dispatch on `stat_type`: `'weekly'` runs
the weekly loop, `'leaders'` the leaders loop, and any other value prints a
diagnostic and falls through to `return final_df`, which raises
`UnboundLocalError` since `final_df` was never assigned.  Result: the
mutated object, the printed diagnostics in order, and the returned table or
the escaping exception. -/
def load_qbr (fetchW : WeeklyFetch) (fetchL : LeadersFetch) (q : Qbr) :
    Qbr × List String × Except Exc QbrResult :=
  let c := convert_season_identifiers q.season_type q.season_type
  let q2 := normalizedQbr q
  if q2.stat_type = .str "weekly" then
    match load_weekly_qbr fetchW q2.years q2.weeks q2.season_type with
    | .ok o => (q2, c.2 ++ o.msgs, .ok (.weekly o))
    | .error e => (q2, c.2, .error e)
  else if q2.stat_type = .str "leaders" then
    match load_season_leaders_qbr fetchL q2.years q2.season_type with
    | .ok o => (q2, c.2 ++ o.msgs, .ok (.leaders o))
    | .error e => (q2, c.2, .error e)
  else
    (q2, c.2 ++ [msg_stat_type], .error .unboundLocalError)

/-! Shared helper lemmas. -/

/-- With the season codes absent (Python `None`), the weekly loop raises
`TypeError` before any iteration: no page is fetched, the parameter
diagnostic is printed, and the concatenation step yields the empty list with
its own diagnostic — for every fetch collaborator and every years/weeks
value. -/
theorem load_weekly_qbr_pynone (fetch : WeeklyFetch) (years weeks : PyObj) :
    load_weekly_qbr fetch years weeks .pynone =
      .ok { rows := [], msgs := [msg_params, msg_no_data], isEmptyList := true } := rfl

/-- `convert_season_identifiers` never returns a string: its value is a
season-code list or Python `None`. -/
theorem convert_season_identifiers_ne_str (st a : PyObj) (s : String) :
    (convert_season_identifiers st a).1 ≠ .str s := by
  unfold convert_season_identifiers
  split_ifs <;> simp

/-- The `stat_type` field is not touched by normalization. -/
theorem normalizedQbr_stat_type (q : Qbr) :
    (normalizedQbr q).stat_type = q.stat_type := rfl

/-- The `season_type` field after normalization is the value
`convert_season_identifiers` computed from the old field. -/
theorem normalizedQbr_season_type (q : Qbr) :
    (normalizedQbr q).season_type =
      (convert_season_identifiers q.season_type q.season_type).1 := rfl

/-- Whatever `load_qbr` does afterwards, the object it hands back is the
normalized (mutated) one. -/
theorem load_qbr_fst (fw : WeeklyFetch) (fl : LeadersFetch) (q : Qbr) :
    (load_qbr fw fl q).1 = normalizedQbr q := by
  simp only [load_qbr]
  split
  · split <;> rfl
  · split
    · split <;> rfl
    · rfl

/-! Concrete collaborators and requests used to evaluate the theorems. -/

/-- A fetch collaborator whose every weekly page holds one row. -/
def fetchW7 : WeeklyFetch := fun _ _ _ => .ok [7]

/-- A fetch collaborator whose every leaders page holds one row. -/
def fetchL7 : LeadersFetch := fun _ _ => .ok [7]

/-- A valid weekly request: years [2020], weeks [1], regular season. -/
def q0 : Qbr := Qbr.init (.list [.int 2020]) (.list [.int 1]) "regular" "weekly"

/-- A request whose stat type is neither "weekly" nor "leaders". -/
def qBadStat : Qbr :=
  Qbr.init (.list [.int 2020]) (.list [.int 1]) "regular" "scores"

/-- A weekly fetch collaborator that fails structurally on week 1 pages and
has data for every other page. -/
def fetchFailWeek1 : WeeklyFetch := fun _ _ w =>
  if w = .int 1 then .error .importError else .ok [5]

/-- A weekly fetch collaborator with data for week 1 pages that fails
structurally on every other page. -/
def fetchOnlyWeek1 : WeeklyFetch := fun _ _ w =>
  if w = .int 1 then .ok [5] else .error .importError

/-! The claims. -/

/-- C4: season-type normalization is total and deterministic.  After the
constructor's case folding and trimming, "regular" maps to the code list
[2], "postseason" to [3], "all" to [2, 3] in that order, and any other
string produces the diagnostic and Python `None` instead of codes, after
which the downstream weekly loop performs zero iterations: it fetches
nothing and returns the empty list with diagnostics, for every fetch
collaborator. -/
theorem C4_season_type_normalization_total (s : String) (a : PyObj) :
    (pyStrip (pyLower s) = "regular" →
      convert_season_identifiers (.str (pyStrip (pyLower s))) a =
        (.list [.int 2], [])) ∧
    (pyStrip (pyLower s) = "postseason" →
      convert_season_identifiers (.str (pyStrip (pyLower s))) a =
        (.list [.int 3], [])) ∧
    (pyStrip (pyLower s) = "all" →
      convert_season_identifiers (.str (pyStrip (pyLower s))) a =
        (.list [.int 2, .int 3], [])) ∧
    (pyStrip (pyLower s) ≠ "regular" → pyStrip (pyLower s) ≠ "postseason" →
     pyStrip (pyLower s) ≠ "all" →
      convert_season_identifiers (.str (pyStrip (pyLower s))) a =
        (.pynone, [msg_season_types]) ∧
      ∀ (fetch : WeeklyFetch) (years weeks : PyObj),
        load_weekly_qbr fetch years weeks .pynone =
          .ok { rows := [], msgs := [msg_params, msg_no_data],
                isEmptyList := true }) := by
  refine ⟨fun h => ?_, fun h => ?_, fun h => ?_, fun h1 h2 h3 => ⟨?_, ?_⟩⟩
  · simp [convert_season_identifiers, h]
  · simp [convert_season_identifiers, h]
  · simp [convert_season_identifiers, h]
  · unfold convert_season_identifiers
    rw [if_neg (by simpa using h1), if_neg (by simpa using h2),
        if_neg (by simpa using h3)]
  · exact fun fetch years weeks => load_weekly_qbr_pynone fetch years weeks

/-- Witness for C4 at concrete inputs. -/
theorem C4_witness :
    convert_season_identifiers (.str (pyStrip (pyLower "  Regular "))) .pynone =
      (.list [.int 2], []) ∧
    convert_season_identifiers (.str (pyStrip (pyLower "playoffs"))) .pynone =
      (.pynone, [msg_season_types]) :=
  ⟨(C4_season_type_normalization_total "  Regular " .pynone).1 (by decide),
   ((C4_season_type_normalization_total "playoffs" .pynone).2.2.2
      (by decide) (by decide) (by decide)).1⟩

/-- C5: the year/week normalizer maps a single integer to the one-element
list holding it, and a list whose elements are all integers to that list
itself — same length, same order. -/
theorem C5_convert_to_list_valid (n : Int) (xs : List PyElem)
    (h : ∀ v ∈ xs, v.isInt = true) :
    convert_to_list (.int n) = .list [.int n] ∧
    convert_to_list (.list xs) = .list xs := by
  refine ⟨rfl, ?_⟩
  have hall : xs.all PyElem.isInt = true := List.all_eq_true.mpr h
  simp [convert_to_list, hall]

/-- Witness for C5 at concrete inputs. -/
theorem C5_witness :
    convert_to_list (.int 5) = .list [.int 5] ∧
    convert_to_list (.list [.int 1, .int 2, .int 3]) =
      .list [.int 1, .int 2, .int 3] :=
  C5_convert_to_list_valid 5 [.int 1, .int 2, .int 3] (by decide)

/-- C6: a non-integer element anywhere in a list input, or an input that is
neither an integer nor a list, makes the normalizer yield Python `None` —
never a partial or partially-validated list. -/
theorem C6_convert_to_list_invalid (xs : List PyElem) (v : PyElem) (x : PyObj)
    (hv : v ∈ xs) (hni : v.isInt = false)
    (hxi : x.isInt = false) (hxl : x.isList = false) :
    convert_to_list (.list xs) = .pynone ∧ convert_to_list x = .pynone := by
  constructor
  · have hall : ¬ xs.all PyElem.isInt = true := fun hc => by
      have := List.all_eq_true.mp hc v hv
      rw [hni] at this
      exact Bool.false_ne_true this
    simp [convert_to_list, hall]
  · cases x <;> simp_all [convert_to_list, PyObj.isInt, PyObj.isList]

/-- Witness for C6 at concrete inputs. -/
theorem C6_witness :
    convert_to_list (.list [.int 1, .other "2.5", .int 3]) = .pynone ∧
    convert_to_list (.str "2020") = .pynone :=
  C6_convert_to_list_invalid [.int 1, .other "2.5", .int 3] (.other "2.5")
    (.str "2020") (by decide) (by decide) (by decide) (by decide)

/-- C1 as stated is false on the code: calling `load_qbr` with a stat type
that is neither "weekly" nor "leaders" does print the diagnostic, but it
does not return to the caller — `return final_df` raises an unbound-local
fault, so this failure propagates to the caller. -/
theorem C1_counterexample :
    msg_stat_type ∈ (load_qbr fetchW7 fetchL7 qBadStat).2.1 ∧
    (load_qbr fetchW7 fetchL7 qBadStat).2.2 = .error .unboundLocalError := by
  constructor
  · decide
  · decide

/-- C1 amended: with a stat type that is neither "weekly" nor "leaders",
`load_qbr` prints the stat-type diagnostic and then raises an
unbound-variable fault (`final_df` was never assigned) instead of returning
a result: this failure is not handled locally. -/
theorem C1_invalid_stat_type_diagnostic_then_raise (fetchW : WeeklyFetch)
    (fetchL : LeadersFetch) (q : Qbr)
    (h1 : q.stat_type ≠ .str "weekly") (h2 : q.stat_type ≠ .str "leaders") :
    msg_stat_type ∈ (load_qbr fetchW fetchL q).2.1 ∧
    (load_qbr fetchW fetchL q).2.2 = .error .unboundLocalError := by
  simp only [load_qbr, normalizedQbr_stat_type]
  rw [if_neg h1, if_neg h2]
  simp

/-- Witness for the amended C1 at a concrete request. -/
theorem C1_witness :
    msg_stat_type ∈ (load_qbr fetchW7 fetchL7 qBadStat).2.1 ∧
    (load_qbr fetchW7 fetchL7 qBadStat).2.2 = .error .unboundLocalError :=
  C1_invalid_stat_type_diagnostic_then_raise fetchW7 fetchL7 qBadStat
    (by decide) (by decide)

set_option maxRecDepth 4000 in
/-- C2 as stated is false on the code: the `try` block wraps the whole
nested loop, so a structural failure on one page aborts the batch instead
of continuing with the next triple.  Here the week-1 page fails while the
week-2 page has a row, yet the result holds no rows at all: the week-2
triple was never fetched. -/
theorem C2_counterexample :
    fetchFailWeek1 (.int 2020) (.int 2) (.int 2) = .ok [5] ∧
    load_weekly_qbr fetchFailWeek1 (.list [.int 2020]) (.list [.int 1, .int 2])
        (.list [.int 2]) =
      .ok { rows := [], msgs := [msg_weekly_no_data, msg_no_data],
            isEmptyList := true } := by
  constructor
  · decide
  · decide

/-- C2 amended: a structural (`ImportError`) failure while fetching one
page logs the diagnostic and aborts the loop — the pages collected before
the failure are still concatenated, but the remaining triples are not
fetched (the result does not depend on `rest`); a parameter-type error
likewise aborts the loop with the parameter diagnostic. -/
theorem C2_structural_failure_aborts_batch (fetch : WeeklyFetch)
    (y w1 w2 : PyElem) (rest : List PyElem) (p : List Nat)
    (h1 : fetch y (.int 2) w1 = .ok p)
    (h2 : fetch y (.int 2) w2 = .error .importError) :
    load_weekly_qbr fetch (.list [y]) (.list (w1 :: w2 :: rest))
        (.list [.int 2]) =
      .ok { rows := p.map fun pay =>
              { payload := pay, year := y, season_type := "regular" },
            msgs := [msg_weekly_no_data], isEmptyList := false } := by
  have hskip : ∀ w : PyElem, ¬(PyElem.int 2 = PyElem.int 3 ∧ w = PyElem.int 4) := by
    intro w hw
    exact absurd hw.1 (by decide)
  have hloop : weeklyLoop fetch (.list [y]) (.list (w1 :: w2 :: rest))
      (.list [.int 2]) =
      ([p.map fun pay => { payload := pay, year := y, season_type := "regular" }],
        some .importError) := by
    simp only [weeklyLoop, loopSeasons, loopYears, loopWeeks]
    rw [if_neg (hskip w1), h1]
    simp only [loopWeeks]
    rw [if_neg (hskip w2), h2]
    simp
  unfold load_weekly_qbr
  rw [hloop]
  simp [concatWeekly]

/-- Witness for the amended C2 at a concrete fetch collaborator. -/
theorem C2_witness :
    load_weekly_qbr fetchOnlyWeek1 (.list [.int 2020]) (.list [.int 1, .int 2])
        (.list [.int 2]) =
      .ok { rows := [{ payload := 5, year := .int 2020, season_type := "regular" }],
            msgs := [msg_weekly_no_data], isEmptyList := false } := by
  have h := C2_structural_failure_aborts_batch fetchOnlyWeek1 (.int 2020)
    (.int 1) (.int 2) [] [5] (by decide) (by decide)
  simpa using h

/-- C3 as stated is false on the code: `load_qbr` mutates the object, and a
second call on the same object against the same pages does not reproduce
the first call's result.  The first call returns one row; the second call
on the mutated object (its `season_type` is now the code list, no longer
the stored string) returns the empty list with diagnostics. -/
theorem C3_counterexample :
    (load_qbr fetchW7 fetchL7 q0).2.2 =
      .ok (.weekly { rows := [{ payload := 7, year := .int 2020,
                                season_type := "regular" }],
                     msgs := [], isEmptyList := false }) ∧
    (load_qbr fetchW7 fetchL7 (load_qbr fetchW7 fetchL7 q0).1).2.2 =
      .ok (.weekly { rows := [], msgs := [msg_params, msg_no_data],
                     isEmptyList := true }) ∧
    (load_qbr fetchW7 fetchL7 q0).1.season_type ≠ q0.season_type := by
  refine ⟨?_, ?_, ?_⟩
  · decide
  · decide
  · decide

/-- C3 amended: a fresh object with the same parameters yields the
identical result (the loader is a pure function of the object and the fetch
collaborator), but re-running `load_qbr` on the same object is not
idempotent: normalization overwrote `season_type`, so for every weekly
request the second call returns the empty list with diagnostics, whatever
the fetch collaborator answers. -/
theorem C3_second_call_returns_empty (fw : WeeklyFetch) (fl : LeadersFetch)
    (q : Qbr) (hst : q.stat_type = .str "weekly") :
    (load_qbr fw fl (load_qbr fw fl q).1).2.2 =
      .ok (.weekly { rows := [], msgs := [msg_params, msg_no_data],
                     isEmptyList := true }) ∧
    (load_qbr fw fl (load_qbr fw fl q).1).1.season_type = .pynone := by
  rw [load_qbr_fst]
  have hs : ∀ s, (normalizedQbr q).season_type ≠ .str s := fun s =>
    normalizedQbr_season_type q ▸
      convert_season_identifiers_ne_str q.season_type q.season_type s
  have hcv : convert_season_identifiers (normalizedQbr q).season_type
      (normalizedQbr q).season_type = (.pynone, [msg_season_types]) := by
    unfold convert_season_identifiers
    rw [if_neg (hs "regular"), if_neg (hs "postseason"), if_neg (hs "all")]
  constructor
  · simp only [load_qbr, normalizedQbr_stat_type]
    rw [if_pos hst]
    rw [normalizedQbr_season_type (normalizedQbr q), hcv]
    rw [load_weekly_qbr_pynone]
  · rw [load_qbr_fst, normalizedQbr_season_type (normalizedQbr q), hcv]

/-- Witness for the amended C3 at a concrete request. -/
theorem C3_witness :
    (load_qbr fetchW7 fetchL7 (load_qbr fetchW7 fetchL7 q0).1).2.2 =
      .ok (.weekly { rows := [], msgs := [msg_params, msg_no_data],
                     isEmptyList := true }) ∧
    (load_qbr fetchW7 fetchL7 (load_qbr fetchW7 fetchL7 q0).1).1.season_type =
      .pynone :=
  C3_second_call_returns_empty fetchW7 fetchL7 q0 (by decide)

/-- C10: the season-code conversion ignores its explicit argument.  For any
`Qbr` object and any two arguments, `convert_season_identifiers` returns
the same value and diagnostics, because the method only reads the object's
stored `season_type` field. -/
theorem C10_convert_season_identifiers_ignores_argument (q : Qbr)
    (a b : PyObj) :
    convert_season_identifiers q.season_type a =
      convert_season_identifiers q.season_type b := rfl

/-! Congruence of the weekly loop in the fetch collaborator, away from the
skipped postseason/week-4 combination. -/

/-- The week loop never consults the fetch collaborator on a skipped
(postseason, week 4) page. -/
theorem loopWeeks_congr {f g : WeeklyFetch}
    (h : ∀ y s w, ¬(s = PyElem.int 3 ∧ w = PyElem.int 4) → f y s w = g y s w)
    (s y : PyElem) (ws : List PyElem) (df : List (List TaggedRow)) :
    loopWeeks f s y ws df = loopWeeks g s y ws df := by
  induction ws generalizing df with
  | nil => rfl
  | cons w rest ih =>
    simp only [loopWeeks]
    by_cases hc : s = PyElem.int 3 ∧ w = PyElem.int 4
    · rw [if_pos hc, if_pos hc]
      exact ih df
    · rw [if_neg hc, if_neg hc, h y s w hc]
      cases g y s w with
      | ok rows => exact ih _
      | error e => rfl

/-- Lift of `loopWeeks_congr` through the year loop. -/
theorem loopYears_congr {f g : WeeklyFetch}
    (h : ∀ y s w, ¬(s = PyElem.int 3 ∧ w = PyElem.int 4) → f y s w = g y s w)
    (s : PyElem) (weeks : PyObj) (ys : List PyElem)
    (df : List (List TaggedRow)) :
    loopYears f s weeks ys df = loopYears g s weeks ys df := by
  induction ys generalizing df with
  | nil => rfl
  | cons y rest ih =>
    cases weeks with
    | list ws =>
      simp only [loopYears]
      rw [loopWeeks_congr h s y ws df]
      cases hlw : loopWeeks g s y ws df with
      | mk df2 exc =>
        cases exc with
        | none => exact ih df2
        | some e => rfl
    | int n => rfl
    | str s2 => rfl
    | pynone => rfl
    | other t => rfl

/-- Lift of `loopWeeks_congr` through the season loop. -/
theorem loopSeasons_congr {f g : WeeklyFetch}
    (h : ∀ y s w, ¬(s = PyElem.int 3 ∧ w = PyElem.int 4) → f y s w = g y s w)
    (years weeks : PyObj) (ss : List PyElem) (df : List (List TaggedRow)) :
    loopSeasons f years weeks ss df = loopSeasons g years weeks ss df := by
  induction ss generalizing df with
  | nil => rfl
  | cons s rest ih =>
    cases years with
    | list ys =>
      simp only [loopSeasons]
      rw [loopYears_congr h s weeks ys df]
      cases hly : loopYears g s weeks ys df with
      | mk df2 exc =>
        cases exc with
        | none => exact ih df2
        | some e => rfl
    | int n => rfl
    | str s2 => rfl
    | pynone => rfl
    | other t => rfl

/-- C7: the (postseason, week 4) combination is always skipped: the weekly
result is identical under any two fetch collaborators that agree on every
other page, for every year and every other week of the request — so no such
page is ever fetched and the combination contributes zero rows. -/
theorem C7_postseason_week4_never_fetched (f g : WeeklyFetch)
    (h : ∀ y s w, ¬(s = PyElem.int 3 ∧ w = PyElem.int 4) → f y s w = g y s w)
    (years weeks season_type : PyObj) :
    load_weekly_qbr f years weeks season_type =
      load_weekly_qbr g years weeks season_type := by
  have hl : weeklyLoop f years weeks season_type =
      weeklyLoop g years weeks season_type := by
    unfold weeklyLoop
    cases season_type with
    | list ss => exact loopSeasons_congr h years weeks ss []
    | int n => rfl
    | str s => rfl
    | pynone => rfl
    | other t => rfl
  unfold load_weekly_qbr
  rw [hl]

/-- A fetch collaborator with one row on every page. -/
def fetchAllPages : WeeklyFetch := fun _ _ _ => .ok [1]

/-- Like `fetchAllPages`, except that the (postseason, week 4) page raises:
its behavior there can never be observed. -/
def fetchNoPost4 : WeeklyFetch := fun _ s w =>
  if s = PyElem.int 3 ∧ w = PyElem.int 4 then .error .valueError else .ok [1]

/-- Witness for C7 at two concrete fetch collaborators that differ exactly
on the postseason/week-4 page. -/
theorem C7_witness :
    load_weekly_qbr fetchAllPages (.list [.int 2020])
        (.list [.int 3, .int 4, .int 5]) (.list [.int 2, .int 3]) =
      load_weekly_qbr fetchNoPost4 (.list [.int 2020])
        (.list [.int 3, .int 4, .int 5]) (.list [.int 2, .int 3]) :=
  C7_postseason_week4_never_fetched fetchAllPages fetchNoPost4
    (fun y s w hn => by simp only [fetchAllPages, fetchNoPost4, if_neg hn]) _ _ _

/-- A weekly fetch collaborator on which every page raises `ValueError` —
the exception `pd.read_html` uses for "no tables found", which the weekly
loader does not catch. -/
def fetchVFail : WeeklyFetch := fun _ _ _ => .error .valueError

/-- C8 as stated is false on the code: a zero-page request does not always
return the empty dataset to the caller.  In the weekly loader only
`ImportError` and `TypeError` are caught, so a `ValueError` raised by the
fetch collaborator escapes with zero pages collected; in the leaders loader
only `ValueError` is caught, so the `TypeError` from iterating `None`
escapes likewise.  In both cases the caller receives the exception, not an
empty dataset. -/
theorem C8_counterexample :
    (weeklyLoop fetchVFail (.list [.int 2020]) (.list [.int 1])
        (.list [.int 2])).1 = [] ∧
    load_weekly_qbr fetchVFail (.list [.int 2020]) (.list [.int 1])
        (.list [.int 2]) = .error .valueError ∧
    (leadersLoop fetchL7 .pynone (.list [.int 2])).1 = [] ∧
    load_season_leaders_qbr fetchL7 .pynone (.list [.int 2]) =
      .error .typeError := by
  refine ⟨?_, ?_, ?_, ?_⟩
  · decide
  · decide
  · decide
  · decide

/-- C8 amended: if zero pages were collected and the loop finished (its exception,
if any, was one of the caught kinds), both the weekly and the leaders
request return the empty list together with the "No data to output."
diagnostic: the concatenation of the empty collection raises `ValueError`,
which is caught — the caller sees no exception from the concatenation
step. -/
theorem C8_zero_pages_empty_result (fw : WeeklyFetch) (fl : LeadersFetch)
    (ysw wsw stw ysl stl : PyObj)
    (hw0 : (weeklyLoop fw ysw wsw stw).1 = [])
    (hwe : (weeklyLoop fw ysw wsw stw).2 = none ∨
           (weeklyLoop fw ysw wsw stw).2 = some .importError ∨
           (weeklyLoop fw ysw wsw stw).2 = some .typeError)
    (hl0 : (leadersLoop fl ysl stl).1 = [])
    (hle : (leadersLoop fl ysl stl).2 = none ∨
           (leadersLoop fl ysl stl).2 = some .valueError) :
    (∃ ms, load_weekly_qbr fw ysw wsw stw =
        .ok { rows := [], msgs := ms, isEmptyList := true } ∧
        msg_no_data ∈ ms) ∧
    (∃ ms, load_season_leaders_qbr fl ysl stl =
        .ok { rows := [], msgs := ms, isEmptyList := true } ∧
        msg_no_data ∈ ms) := by
  constructor
  · rcases hwe with h | h | h
    · refine ⟨[msg_no_data], ?_, by simp⟩
      unfold load_weekly_qbr
      rw [h, hw0]
      rfl
    · refine ⟨[msg_weekly_no_data, msg_no_data], ?_, by simp⟩
      unfold load_weekly_qbr
      rw [h, hw0]
      rfl
    · refine ⟨[msg_params, msg_no_data], ?_, by simp⟩
      unfold load_weekly_qbr
      rw [h, hw0]
      rfl
  · rcases hle with h | h
    · refine ⟨[msg_no_data], ?_, by simp⟩
      unfold load_season_leaders_qbr
      rw [h, hl0]
      rfl
    · refine ⟨[msg_no_tables, msg_no_data], ?_, by simp⟩
      unfold load_season_leaders_qbr
      rw [h, hl0]
      rfl

/-- A weekly fetch collaborator on which every page fails structurally. -/
def fetchWFail : WeeklyFetch := fun _ _ _ => .error .importError

/-- A leaders fetch collaborator on which every page has no tables. -/
def fetchLFail : LeadersFetch := fun _ _ => .error .valueError

/-- Witness for C8 at concrete requests that collect zero pages. -/
theorem C8_witness :
    (∃ ms, load_weekly_qbr fetchWFail (.list [.int 2020]) (.list [.int 1])
        (.list [.int 2]) =
        .ok { rows := [], msgs := ms, isEmptyList := true } ∧
        msg_no_data ∈ ms) ∧
    (∃ ms, load_season_leaders_qbr fetchLFail (.list [.int 2020])
        (.list [.int 2]) =
        .ok { rows := [], msgs := ms, isEmptyList := true } ∧
        msg_no_data ∈ ms) :=
  C8_zero_pages_empty_result fetchWFail fetchLFail _ _ _ _ _
    (by decide) (Or.inr (Or.inl (by decide))) (by decide) (Or.inr (by decide))

/-! Row invariants of the weekly loop: every collected row carries a
requested year and a human-readable season type. -/

/-- Rows appended by the week loop are tagged with the year being iterated
and with "regular" or "postseason". -/
theorem loopWeeks_rows_ok (P : PyElem → Prop) (f : WeeklyFetch) (s y : PyElem)
    (hy : P y) (ws : List PyElem) (df : List (List TaggedRow))
    (hdf : ∀ page ∈ df, ∀ r ∈ page, P r.year ∧
      (r.season_type = "regular" ∨ r.season_type = "postseason")) :
    ∀ page ∈ (loopWeeks f s y ws df).1, ∀ r ∈ page, P r.year ∧
      (r.season_type = "regular" ∨ r.season_type = "postseason") := by
  induction ws generalizing df with
  | nil => exact hdf
  | cons w rest ih =>
    simp only [loopWeeks]
    by_cases hc : s = PyElem.int 3 ∧ w = PyElem.int 4
    · rw [if_pos hc]
      exact ih df hdf
    · rw [if_neg hc]
      cases f y s w with
      | error e => exact hdf
      | ok rows =>
        refine ih _ ?_
        intro page hp r hr
        rcases List.mem_append.mp hp with h1 | h2
        · exact hdf page h1 r hr
        · have hpage : page = rows.map fun p =>
              { payload := p, year := y,
                season_type :=
                  if s = PyElem.int 2 then "regular" else "postseason" } := by
            simpa using h2
          subst hpage
          rcases List.mem_map.mp hr with ⟨pay, hpay, rfl⟩
          refine ⟨hy, ?_⟩
          by_cases hs2 : s = PyElem.int 2
          · rw [if_pos hs2]
            exact Or.inl rfl
          · rw [if_neg hs2]
            exact Or.inr rfl

/-- Lift of `loopWeeks_rows_ok` through the year loop: the tagged year is
always one of the requested years. -/
theorem loopYears_rows_ok (P : PyElem → Prop) (f : WeeklyFetch) (s : PyElem)
    (weeks : PyObj) (ys : List PyElem) (hys : ∀ y ∈ ys, P y)
    (df : List (List TaggedRow))
    (hdf : ∀ page ∈ df, ∀ r ∈ page, P r.year ∧
      (r.season_type = "regular" ∨ r.season_type = "postseason")) :
    ∀ page ∈ (loopYears f s weeks ys df).1, ∀ r ∈ page, P r.year ∧
      (r.season_type = "regular" ∨ r.season_type = "postseason") := by
  induction ys generalizing df with
  | nil => exact hdf
  | cons y rest ih =>
    cases weeks with
    | list ws =>
      simp only [loopYears]
      have hnew := loopWeeks_rows_ok P f s y (hys y (List.mem_cons_self y rest))
        ws df hdf
      cases hlw : loopWeeks f s y ws df with
      | mk df2 exc =>
        rw [hlw] at hnew
        cases exc with
        | none =>
          exact ih (fun y2 h2 => hys y2 (List.mem_cons_of_mem _ h2)) df2 hnew
        | some e => exact hnew
    | int n => exact hdf
    | str s2 => exact hdf
    | pynone => exact hdf
    | other t => exact hdf

/-- Lift of `loopWeeks_rows_ok` through the season loop. -/
theorem loopSeasons_rows_ok (P : PyElem → Prop) (f : WeeklyFetch)
    (ys : List PyElem) (weeks : PyObj) (ss : List PyElem)
    (hys : ∀ y ∈ ys, P y) (df : List (List TaggedRow))
    (hdf : ∀ page ∈ df, ∀ r ∈ page, P r.year ∧
      (r.season_type = "regular" ∨ r.season_type = "postseason")) :
    ∀ page ∈ (loopSeasons f (.list ys) weeks ss df).1, ∀ r ∈ page,
      P r.year ∧
      (r.season_type = "regular" ∨ r.season_type = "postseason") := by
  induction ss generalizing df with
  | nil => exact hdf
  | cons s rest ih =>
    simp only [loopSeasons]
    have hnew := loopYears_rows_ok P f s weeks ys hys df hdf
    cases hly : loopYears f s weeks ys df with
    | mk df2 exc =>
      rw [hly] at hnew
      cases exc with
      | none => exact ih df2 hnew
      | some e => exact hnew

/-- Every row of a returned weekly table comes from some collected page. -/
theorem load_weekly_qbr_rows_mem (f : WeeklyFetch) (years weeks st : PyObj)
    (out : WeeklyOut) (h : load_weekly_qbr f years weeks st = .ok out)
    (r : TaggedRow) (hr : r ∈ out.rows) :
    ∃ page ∈ (weeklyLoop f years weeks st).1, r ∈ page := by
  have main : ∀ ms, concatWeekly (weeklyLoop f years weeks st).1 ms = out →
      ∃ page ∈ (weeklyLoop f years weeks st).1, r ∈ page := by
    intro ms hms
    unfold concatWeekly at hms
    by_cases h0 : (weeklyLoop f years weeks st).1 = []
    · rw [if_pos h0] at hms
      rw [← hms] at hr
      simp at hr
    · rw [if_neg h0] at hms
      rw [← hms] at hr
      simpa using List.mem_flatten.mp hr
  unfold load_weekly_qbr at h
  rcases he : (weeklyLoop f years weeks st).2 with _ | e
  · rw [he] at h
    exact main [] (Except.ok.inj h)
  · cases e with
    | importError =>
      rw [he] at h
      exact main [msg_weekly_no_data] (Except.ok.inj h)
    | typeError =>
      rw [he] at h
      exact main [msg_params] (Except.ok.inj h)
    | valueError =>
      rw [he] at h
      exact Except.noConfusion h
    | unboundLocalError =>
      rw [he] at h
      exact Except.noConfusion h

/-- A weekly table returned by the dispatcher is the one the weekly loader
produced from the normalized parameters. -/
theorem load_qbr_weekly_ok (fw : WeeklyFetch) (fl : LeadersFetch) (q : Qbr)
    (hst : q.stat_type = .str "weekly") (out : WeeklyOut)
    (h : (load_qbr fw fl q).2.2 = .ok (.weekly out)) :
    load_weekly_qbr fw (convert_to_list q.years) (convert_to_list q.weeks)
      (convert_season_identifiers q.season_type q.season_type).1 = .ok out := by
  simp only [load_qbr, normalizedQbr_stat_type] at h
  rw [if_pos hst] at h
  cases hlw : load_weekly_qbr fw (normalizedQbr q).years (normalizedQbr q).weeks
      (normalizedQbr q).season_type with
  | ok o =>
    rw [hlw] at h
    simp at h
    exact h ▸ hlw
  | error e =>
    rw [hlw] at h
    simp at h

/-- The request of the claim: years [2020], weeks [1, 2], all seasons,
weekly stats. -/
def q_all_2020 : Qbr :=
  Qbr.init (.list [.int 2020]) (.list [.int 1, .int 2]) "all" "weekly"

/-- C9: every row of the table returned for the weekly request with
years=[2020], weeks=[1,2], season_type="all" carries `year` 2020 and a
`season_type` column value that is "regular" (from code 2) or "postseason"
(from code 3), whatever the fetch collaborator answers. -/
theorem C9_weekly_all_rows_tagged (fw : WeeklyFetch) (fl : LeadersFetch)
    (out : WeeklyOut)
    (h : (load_qbr fw fl q_all_2020).2.2 = .ok (.weekly out))
    (r : TaggedRow) (hr : r ∈ out.rows) :
    r.year = .int 2020 ∧
      (r.season_type = "regular" ∨ r.season_type = "postseason") := by
  have hlw := load_qbr_weekly_ok fw fl q_all_2020 (by decide) out h
  rw [show convert_to_list q_all_2020.years = .list [.int 2020] from by decide,
      show convert_to_list q_all_2020.weeks = .list [.int 1, .int 2] from by
        decide,
      show (convert_season_identifiers q_all_2020.season_type
          q_all_2020.season_type).1 = .list [.int 2, .int 3] from by decide]
    at hlw
  obtain ⟨page, hpm, hrp⟩ := load_weekly_qbr_rows_mem fw _ _ _ out hlw r hr
  have hmem : page ∈ (loopSeasons fw (.list [.int 2020])
      (.list [.int 1, .int 2]) [.int 2, .int 3] []).1 := hpm
  exact loopSeasons_rows_ok (fun y => y = PyElem.int 2020) fw [.int 2020]
    (.list [.int 1, .int 2]) [.int 2, .int 3] (by simp) [] (by simp)
    page hmem r hrp

set_option maxRecDepth 8000 in
/-- Witness for C9 at a concrete fetch collaborator: the request collects
four pages (two season codes times two weeks, none skipped) and the first
returned row is checked. -/
theorem C9_witness :
    ({ payload := 7, year := .int 2020, season_type := "regular" } :
        TaggedRow).year = .int 2020 ∧
    (({ payload := 7, year := .int 2020, season_type := "regular" } :
        TaggedRow).season_type = "regular" ∨
     ({ payload := 7, year := .int 2020, season_type := "regular" } :
        TaggedRow).season_type = "postseason") :=
  C9_weekly_all_rows_tagged fetchW7 fetchL7
    { rows := [{ payload := 7, year := .int 2020, season_type := "regular" },
               { payload := 7, year := .int 2020, season_type := "regular" },
               { payload := 7, year := .int 2020, season_type := "postseason" },
               { payload := 7, year := .int 2020, season_type := "postseason" }],
      msgs := [], isEmptyList := false }
    (by decide)
    { payload := 7, year := .int 2020, season_type := "regular" }
    (by decide)

end Espn
